import Mathlib

/-!
Verification of the pautina-hosting backend (FastAPI + SQLAlchemy).

This file shallowly embeds the authentication / authorization core and the
host lifecycle operations of the backend:

* `models.py`      — `RoleEnum`, `PlanEnum`, `StatusEnum`, `User`,
                     `TempPassword`, `Host` (columns become structure fields;
                     nullable columns become `Option`).
* `core/security.py` — Argon2 password hashing (`verify_password`,
                     `get_password_hash`) and JWT handling
                     (`create_access_token`, `decode_access_token`).
* `routers/users.py` — `get_current_user`, `read_users_me`.
* `routers/auth.py`  — `register`, `login`, lookup helpers,
                     `generate_random_password`, `is_invalid_agreements`.
* `routers/hosts.py` — `create_host`, `list_hosts`, `get_host`.
* `routers/admin.py` — `list_users`, `block_host`, `archive_host`.

Modelling conventions:

* The relational store is a triple of lists (`DB`); SQLAlchemy `db.get` /
  `query(...).filter(...).first()` become `List.find?`; `db.commit` of an
  attribute mutation becomes a functional update of the list.
* Python exceptions are explicit: `HTTPException` values raised by handlers
  and uncaught library exceptions (pydantic validation errors, Argon2
  `InvalidHashError`) are distinct constructors of `Failure`, since FastAPI
  turns the former into its status code and the latter into a 500.
* Argon2 hashing is abstracted: a hash string is either a well-formed Argon2
  hash recording the hashed password (and salt), or a malformed string; the
  library verifier succeeds exactly on a matching password, raises
  `VerifyMismatchError` on a well-formed non-matching hash and
  `InvalidHashError` on a malformed one (argon2-cffi documented behaviour).
* JWTs are abstracted: an encoded token records its payload and the signing
  key; `jwt.decode` succeeds iff the key matches and the `exp` claim (when
  present) is not in the past, all failure modes being `PyJWTError`s.
* Randomness (temporary-password draws, UUID token, Argon2 salt) and the
  clock are explicit parameters.
* Python `str(int)` / pydantic's string-to-int coercion are modelled by a
  decimal printer / parser pair over the ASCII digits.
-/

namespace Pautina

/-- `RoleEnum` from `models.py`. -/
inductive RoleEnum where
  | guest
  | user
  | admin
  | system
  deriving DecidableEq, Repr

/-- `PlanEnum` from `models.py`. -/
inductive PlanEnum where
  | demo
  | yearly
  deriving DecidableEq, Repr

/-- `StatusEnum` from `models.py`. -/
inductive StatusEnum where
  | pending
  | active
  | expiring
  | disabled
  | archived
  deriving DecidableEq, Repr

/-- Python exceptions that can cross a handler boundary uncaught. -/
inductive PyExn where
  | validationError
  | verifyMismatchError
  | invalidHashError
  deriving DecidableEq, Repr

/-- A `fastapi.HTTPException`: status code plus optional detail string. -/
structure HTTPError where
  status_code : Nat
  detail : Option String
  deriving DecidableEq, Repr

/-- Outcome of a request handler: an `HTTPException` raised by the handler
itself, or an uncaught Python exception escaping it (a 500 in FastAPI). -/
inductive Failure where
  | http (e : HTTPError)
  | exn (e : PyExn)
  deriving DecidableEq, Repr

abbrev Result (α : Type) := Except Failure α

/-- Abstract model of an Argon2 hash string: `wellFormed` records the hashed
password and the salt drawn when hashing; `malformed` covers strings that do
not parse as Argon2 hashes. -/
inductive HashStr where
  | wellFormed (password : String) (salt : Nat)
  | malformed (raw : String)
  deriving DecidableEq, Repr

/-- `argon2.PasswordHasher.verify`: succeeds on a match, raises
`VerifyMismatchError` on a well-formed but non-matching hash, and
`InvalidHashError` on a hash that does not parse. -/
def ph_verify (hashed : HashStr) (plain : String) : Except PyExn Unit :=
  match hashed with
  | .wellFormed p _ => if plain = p then .ok () else .error .verifyMismatchError
  | .malformed _ => .error .invalidHashError

/-- `verify_password` from `core/security.py`: calls `ph.verify` and catches
only `VerifyMismatchError`; any other exception propagates to the caller. -/
def verify_password (plain_password : String) (hashed_password : HashStr) :
    Except PyExn Bool :=
  match ph_verify hashed_password plain_password with
  | .ok _ => .ok true
  | .error .verifyMismatchError => .ok false
  | .error e => .error e

/-- `get_password_hash` from `core/security.py` (`ph.hash`); the salt drawn
internally by Argon2 is an explicit parameter. -/
def get_password_hash (password : String) (salt : Nat) : HashStr :=
  .wellFormed password salt

/-- Specification-side predicate: does the plaintext match the stored hash?
A malformed string is the hash of no password. -/
def hashMatches (plain : String) (h : HashStr) : Bool :=
  match h with
  | .wellFormed p _ => plain == p
  | .malformed _ => false

/-! ### Decimal printing and parsing (Python `str(int)` / pydantic `int`) -/

/-- Decimal digits of `n`, least significant first; `fuel` bounds recursion
and any `fuel ≥ n` is enough. -/
def decDigitsAux : Nat → Nat → List Nat
  | 0, _ => []
  | _ + 1, 0 => []
  | fuel + 1, n + 1 => (n + 1) % 10 :: decDigitsAux fuel ((n + 1) / 10)

/-- Decimal digits of `n`, least significant first. -/
def decDigits (n : Nat) : List Nat := decDigitsAux n n

/-- ASCII character of a decimal digit. -/
def digitChar10 (d : Nat) : Char := Char.ofNat (48 + d)

/-- Python `str` on a nonnegative integer: its decimal representation. -/
def pyStr (n : Nat) : String :=
  if n = 0 then "0" else String.mk ((decDigits n).reverse.map digitChar10)

/-- Value of an ASCII decimal digit character, if it is one. -/
def pyCharDigit (c : Char) : Option Nat :=
  if 48 ≤ c.toNat ∧ c.toNat ≤ 57 then some (c.toNat - 48) else none

/-- Accumulating decimal parse, most significant digit first. -/
def pyParseNatGo (acc : Nat) : List Char → Option Nat
  | [] => some acc
  | c :: cs =>
    match pyCharDigit c with
    | some d => pyParseNatGo (10 * acc + d) cs
    | none => none

/-- Pydantic's lax string-to-integer coercion, restricted to the nonnegative
decimal strings this application produces; any other string fails
validation. -/
def pyParseNat (s : String) : Option Nat :=
  match s.data with
  | [] => none
  | cs => pyParseNatGo 0 cs

/-! ### JWT model (`core/security.py`) -/

/-- Default for `SECRET_KEY` (`os.getenv("SECRET_KEY", "supersecretkey")`);
handlers below take the process-wide key as a parameter. -/
def SECRET_KEY_DEFAULT : String := "supersecretkey"

/-- `ACCESS_TOKEN_EXPIRE_MINUTES = 60 * 24`. -/
def ACCESS_TOKEN_EXPIRE_MINUTES : Int := 60 * 24

/-- The JWT claims this application reads: `sub` and `role` (strings in the
issued payload) and the absolute expiry `exp` in seconds. -/
structure Payload where
  sub : Option String
  role : Option String
  exp : Option Int
  deriving DecidableEq, Repr

/-- An encoded JWT: its payload together with the key it was signed with. -/
structure Jwt where
  payload : Payload
  signedWith : String
  deriving DecidableEq, Repr

/-- A bearer-token string as received from the client: either a structurally
valid JWT or a string that does not parse as one. -/
inductive TokenStr where
  | jwt (t : Jwt)
  | malformed (raw : String)
  deriving DecidableEq, Repr

/-- `create_access_token` from `core/security.py`: copies the payload and sets
`exp` to now plus `expires_delta` (default `ACCESS_TOKEN_EXPIRE_MINUTES`
minutes), then signs with the process key. Time is in seconds. -/
def create_access_token (key : String) (now : Int) (data : Payload)
    (expires_delta : Option Int) : Jwt :=
  { payload :=
      { data with exp := some (now + expires_delta.getD (60 * ACCESS_TOKEN_EXPIRE_MINUTES)) }
    signedWith := key }

/-- `jwt.decode`: fails (with some `PyJWTError`) on an unparseable token, a
signature made with a different key, or an expired `exp` claim; otherwise
returns the payload. -/
def jwt_decode (key : String) (now : Int) (token : TokenStr) : Option Payload :=
  match token with
  | .malformed _ => none
  | .jwt t =>
    if t.signedWith = key then
      match t.payload.exp with
      | some e => if e < now then none else some t.payload
      | none => some t.payload
    else none

/-- `TokenData` from `schemas.py` (`user_id: Optional[int]`,
`role: Optional[RoleEnum]`). -/
structure TokenData where
  user_id : Option Nat
  role : Option RoleEnum
  deriving DecidableEq, Repr

/-- `RoleEnum.value` in Python. -/
def roleVal : RoleEnum → String
  | .guest => "guest"
  | .user => "user"
  | .admin => "admin"
  | .system => "system"

/-- Pydantic coercion of a string to `RoleEnum` by enum value. -/
def roleOfStr (s : String) : Option RoleEnum :=
  if s = "guest" then some .guest
  else if s = "user" then some .user
  else if s = "admin" then some .admin
  else if s = "system" then some .system
  else none

/-- Pydantic validation of the `user_id` field of `TokenData`: absent stays
`None`; a string must coerce to an integer or validation fails. -/
def validate_user_id (v : Option String) : Except PyExn (Option Nat) :=
  match v with
  | none => .ok none
  | some s =>
    match pyParseNat s with
    | some n => .ok (some n)
    | none => .error .validationError

/-- Pydantic validation of the `role` field of `TokenData`. -/
def validate_role (v : Option String) : Except PyExn (Option RoleEnum) :=
  match v with
  | none => .ok none
  | some s =>
    match roleOfStr s with
    | some r => .ok (some r)
    | none => .error .validationError

/-- Construction `TokenData(user_id=payload.get("sub"), role=payload.get("role"))`:
pydantic validates both fields and raises `ValidationError` if either fails. -/
def mkTokenData (sub role : Option String) : Except PyExn TokenData :=
  match validate_user_id sub, validate_role role with
  | .ok uid, .ok r => .ok { user_id := uid, role := r }
  | .error e, _ => .error e
  | _, .error e => .error e

/-- `decode_access_token` from `core/security.py`: catches only `PyJWTError`
(returning `None`); a pydantic `ValidationError` raised while building
`TokenData` propagates. -/
def decode_access_token (key : String) (now : Int) (token : TokenStr) :
    Except PyExn (Option TokenData) :=
  match jwt_decode key now token with
  | none => .ok none
  | some p =>
    match mkTokenData p.sub p.role with
    | .ok td => .ok (some td)
    | .error e => .error e

/-! ### Data model and store (`models.py`) -/

/-- `User` from `models.py`; `role` and `active` have column defaults
`RoleEnum.user` and `True`, set at insertion in the handlers below. -/
structure User where
  id : Nat
  name : String
  email : String
  phone : String
  phone_verified : Bool
  hashed_password : HashStr
  role : RoleEnum
  active : Bool
  created_at : Int
  deriving DecidableEq, Repr

/-- `TempPassword` from `models.py`. -/
structure TempPassword where
  token : String
  temp_password : String
  created_at : Int
  deriving DecidableEq, Repr

/-- `Host` from `models.py`; nullable columns are `Option`. -/
structure Host where
  id : Nat
  subdomain : String
  plan : PlanEnum
  status : StatusEnum
  created_at : Int
  expires_at : Option Int
  owner_id : Option Nat
  ftp_user : Option String
  ftp_password : Option String
  ssh_user : Option String
  ssh_key : Option String
  mysql_db : Option String
  mysql_user : Option String
  mysql_password : Option String
  mail_user : Option String
  mail_password : Option String
  deriving DecidableEq, Repr

/-- The relational store: the three tables the application uses. -/
structure DB where
  users : List User
  hosts : List Host
  temp_passwords : List TempPassword
  deriving DecidableEq, Repr

/-- `db.get(models.User, ident)`: primary-key lookup; a `None` identity
(token without a subject) finds nothing. -/
def db_get_user (db : DB) (ident : Option Nat) : Option User :=
  ident.bind (fun i => db.users.find? (fun u => u.id == i))

/-- `db.get(models.Host, host_id)`: primary-key lookup. -/
def db_get_host (db : DB) (host_id : Nat) : Option Host :=
  db.hosts.find? (fun h => h.id == host_id)

/-- `get_user_by_email` from `routers/auth.py`. -/
def get_user_by_email (db : DB) (email : String) : Option User :=
  db.users.find? (fun u => u.email == email)

/-- `get_user_by_phone` from `routers/auth.py`. -/
def get_user_by_phone (db : DB) (phone : String) : Option User :=
  db.users.find? (fun u => u.phone == phone)

/-- Fresh autoincrement primary key for the users table. -/
def next_user_id (db : DB) : Nat :=
  db.users.foldr (fun u m => max (u.id + 1) m) 1

/-- Fresh autoincrement primary key for the hosts table. -/
def next_host_id (db : DB) : Nat :=
  db.hosts.foldr (fun h m => max (h.id + 1) m) 1

/-! ### Access-control guard (`routers/users.py`) -/

/-- `get_current_user` from `routers/users.py`: decode the bearer token
(401 `"Invalid token"` when the decoder returns `None`), then look the
subject up in the store (404 `"User not found"` when absent). An exception
raised inside `decode_access_token` propagates. -/
def get_current_user (key : String) (now : Int) (db : DB) (token : TokenStr) :
    Result User :=
  match decode_access_token key now token with
  | .error e => .error (.exn e)
  | .ok none => .error (.http ⟨401, some "Invalid token"⟩)
  | .ok (some token_data) =>
    match db_get_user db token_data.user_id with
    | none => .error (.http ⟨404, some "User not found"⟩)
    | some user => .ok user

/-- `read_users_me` from `routers/users.py`: returns the authenticated user. -/
def read_users_me (key : String) (now : Int) (db : DB) (token : TokenStr) :
    Result User :=
  get_current_user key now db token

/-! ### Auth routes (`routers/auth.py`) -/

/-- `string.ascii_letters + string.digits`. -/
def ascii_letters_digits : List Char :=
  "abcdefghijklmnopqrstuvwxyzABCDEFGHIJKLMNOPQRSTUVWXYZ0123456789".data

/-- `generate_random_password` from `routers/auth.py`: `length` uniform draws
from letters+digits via `SystemRandom().choice`; the draws are explicit. -/
def generate_random_password (draws : List Nat) (length : Nat) : String :=
  String.mk ((List.range length).map (fun i =>
    ascii_letters_digits.getD ((draws.getD i 0) % ascii_letters_digits.length) 'a'))

/-- `UserRegister` from `schemas.py`; the `password` field is optional and,
as the route documentation itself notes, ignored. -/
structure UserRegister where
  name : String
  email : String
  password : Option String
  phone : String
  agree_terms : Bool
  agree_privacy : Bool
  deriving DecidableEq, Repr

/-- `is_invalid_agreements` from `routers/auth.py`. -/
def is_invalid_agreements (user_in : UserRegister) : Bool :=
  !(user_in.agree_terms && user_in.agree_privacy)

/-- `UserReadAfterRegister` from `schemas.py`: the created user's fields plus
the one-time `token` for the delivery bot. -/
structure UserReadAfterRegister where
  user : User
  token : String
  deriving DecidableEq, Repr

/-- The `models.User(...)` record built by `register`: the credential hash is
computed from the freshly generated temporary password; `role` and `active`
take their column defaults. -/
def registered_user (db : DB) (user_in : UserRegister) (draws : List Nat)
    (salt : Nat) (now : Int) : User :=
  { id := next_user_id db
    name := user_in.name
    email := user_in.email
    phone := user_in.phone
    phone_verified := false
    hashed_password := get_password_hash (generate_random_password draws 10) salt
    role := RoleEnum.user
    active := true
    created_at := now }

/-- `register` from `routers/auth.py`: checks agreements, email uniqueness,
then phone uniqueness (each a 400); generates a temporary password and an
opaque token, stores the plaintext in `TempPassword` and the new user with
the hash of the temporary password, and returns the user plus the token.
The random draws (`draws` for the password characters, `uuid_token` for
`uuid4().hex`, `salt` for Argon2) and the clock are explicit parameters. -/
def register (db : DB) (user_in : UserRegister) (draws : List Nat)
    (uuid_token : String) (salt : Nat) (now : Int) :
    Result UserReadAfterRegister × DB :=
  if is_invalid_agreements user_in then
    (.error (.http ⟨400, some "Вы не согласились с условиями использования сервиса"⟩), db)
  else if (get_user_by_email db user_in.email).isSome then
    (.error (.http ⟨400, some "Адрес электронной почты уже зарегистрирован"⟩), db)
  else if (get_user_by_phone db user_in.phone).isSome then
    (.error (.http ⟨400, some "Номер телефона уже зарегистрирован"⟩), db)
  else
    (.ok { user := registered_user db user_in draws salt now, token := uuid_token },
     { db with
        users := db.users ++ [registered_user db user_in draws salt now]
        temp_passwords := db.temp_passwords ++
          [{ token := uuid_token
             temp_password := generate_random_password draws 10
             created_at := now }] })

/-- `login` from `routers/auth.py`: look up by email; absent user or failed
password verification both raise the same 401 `"Invalid credentials"`; on
success issue a JWT whose payload carries `str(user.id)` and
`user.role.value`. An exception raised inside `verify_password`
propagates. -/
def login (key : String) (now : Int) (db : DB) (username password : String) :
    Result Jwt :=
  match get_user_by_email db username with
  | none => .error (.http ⟨401, some "Invalid credentials"⟩)
  | some user =>
    match verify_password password user.hashed_password with
    | .error e => .error (.exn e)
    | .ok false => .error (.http ⟨401, some "Invalid credentials"⟩)
    | .ok true =>
      .ok (create_access_token key now
        { sub := some (pyStr user.id), role := some (roleVal user.role), exp := none }
        none)

/-! ### Host routes (`routers/hosts.py`) -/

/-- `HostCreate` from `schemas.py`. -/
structure HostCreate where
  subdomain : String
  plan : PlanEnum
  deriving DecidableEq, Repr

/-- Modelled from the spec: the relational store (module `app/database.py`,
imported by every router but not present under `src/`) enforces the unique
constraint on `Host.subdomain`; per spec §4.4/§7 a violation of it at commit
surfaces as a Conflict/BadRequest-class (400) error instead of the row being
inserted. -/
def db_commit_new_host (db : DB) (host : Host) : Except HTTPError DB :=
  if db.hosts.any (fun h => h.subdomain == host.subdomain) then
    .error ⟨400, none⟩
  else
    .ok { db with hosts := db.hosts ++ [host] }

/-- The `models.Host(...)` record built by `create_host`: only `subdomain`,
`plan` and `owner_id` are supplied; `status` takes its column default
`pending`, `expires_at` and every credential column stay unset. -/
def new_host (db : DB) (host_in : HostCreate) (owner : User) (now : Int) : Host :=
  { id := next_host_id db
    subdomain := host_in.subdomain
    plan := host_in.plan
    status := StatusEnum.pending
    created_at := now
    expires_at := none
    owner_id := some owner.id
    ftp_user := none
    ftp_password := none
    ssh_user := none
    ssh_key := none
    mysql_db := none
    mysql_user := none
    mysql_password := none
    mail_user := none
    mail_password := none }

/-- `create_host` from `routers/hosts.py`: authenticate, build the host record
and commit it (the store rejecting a duplicate subdomain). -/
def create_host (key : String) (now : Int) (db : DB) (token : TokenStr)
    (host_in : HostCreate) : Result Host × DB :=
  match get_current_user key now db token with
  | .error f => (.error f, db)
  | .ok current_user =>
    match db_commit_new_host db (new_host db host_in current_user now) with
    | .error e => (.error (.http e), db)
    | .ok db2 => (.ok (new_host db host_in current_user now), db2)

/-- `list_hosts` from `routers/hosts.py`: all hosts with the requester's
`owner_id`. -/
def list_hosts (key : String) (now : Int) (db : DB) (token : TokenStr) :
    Result (List Host) :=
  match get_current_user key now db token with
  | .error f => .error f
  | .ok current_user =>
    .ok (db.hosts.filter (fun h => h.owner_id == some current_user.id))

/-- `get_host` from `routers/hosts.py`: 404 `"Host not found"` both when no
host has the id and when the found host is owned by someone else. -/
def get_host (key : String) (now : Int) (host_id : Nat) (db : DB)
    (token : TokenStr) : Result Host :=
  match get_current_user key now db token with
  | .error f => .error f
  | .ok current_user =>
    match db_get_host db host_id with
    | none => .error (.http ⟨404, some "Host not found"⟩)
    | some host =>
      if host.owner_id ≠ some current_user.id then
        .error (.http ⟨404, some "Host not found"⟩)
      else .ok host

/-! ### Admin routes (`routers/admin.py`) -/

/-- `list_users` from `routers/admin.py`: 403 unless the requester's role is
exactly `admin`; otherwise all users. The store is returned unchanged. -/
def list_users (key : String) (now : Int) (db : DB) (token : TokenStr) :
    Result (List User) × DB :=
  match get_current_user key now db token with
  | .error f => (.error f, db)
  | .ok current_user =>
    if current_user.role ≠ RoleEnum.admin then (.error (.http ⟨403, none⟩), db)
    else (.ok db.users, db)

/-- `host.status = st; db.commit()`: update the status of the row with the
given primary key. -/
def set_host_status (hosts : List Host) (host_id : Nat) (st : StatusEnum) :
    List Host :=
  hosts.map (fun h => if h.id = host_id then { h with status := st } else h)

/-- `block_host` from `routers/admin.py`: 403 for non-admins, 404 when the id
is absent, otherwise unconditionally set the host's status to `disabled`. -/
def block_host (key : String) (now : Int) (host_id : Nat) (db : DB)
    (token : TokenStr) : Result String × DB :=
  match get_current_user key now db token with
  | .error f => (.error f, db)
  | .ok current_user =>
    if current_user.role ≠ RoleEnum.admin then (.error (.http ⟨403, none⟩), db)
    else
      match db_get_host db host_id with
      | none => (.error (.http ⟨404, none⟩), db)
      | some _ =>
        (.ok "Host blocked",
         { db with hosts := set_host_status db.hosts host_id StatusEnum.disabled })

/-- `archive_host` from `routers/admin.py`: 403 for non-admins, 404 when the
id is absent, otherwise unconditionally set the host's status to `archived`. -/
def archive_host (key : String) (now : Int) (host_id : Nat) (db : DB)
    (token : TokenStr) : Result String × DB :=
  match get_current_user key now db token with
  | .error f => (.error f, db)
  | .ok current_user =>
    if current_user.role ≠ RoleEnum.admin then (.error (.http ⟨403, none⟩), db)
    else
      match db_get_host db host_id with
      | none => (.error (.http ⟨404, none⟩), db)
      | some _ =>
        (.ok "Host archived",
         { db with hosts := set_host_status db.hosts host_id StatusEnum.archived })

instance {ε α : Type} [DecidableEq ε] [DecidableEq α] : DecidableEq (Except ε α) :=
  fun x y =>
    match x, y with
    | .ok a, .ok b =>
      if h : a = b then isTrue (by rw [h])
      else isFalse (fun hc => h (by injection hc))
    | .error a, .error b =>
      if h : a = b then isTrue (by rw [h])
      else isFalse (fun hc => h (by injection hc))
    | .ok _, .error _ => isFalse (fun hc => Except.noConfusion hc)
    | .error _, .ok _ => isFalse (fun hc => Except.noConfusion hc)

/-! ### Concrete store and tokens instantiating the theorems below -/

/-- A regular user on record. -/
def alice : User :=
  { id := 1
    name := "Alice"
    email := "alice@x.com"
    phone := "+1"
    phone_verified := false
    hashed_password := HashStr.wellFormed "pw123" 7
    role := RoleEnum.user
    active := true
    created_at := 0 }

/-- An administrator on record. -/
def adminUser : User :=
  { id := 2
    name := "Administrator"
    email := "admin@x.com"
    phone := "+2"
    phone_verified := false
    hashed_password := HashStr.wellFormed "admin123" 8
    role := RoleEnum.admin
    active := true
    created_at := 0 }

/-- A host owned by `alice`. -/
def host1 : Host :=
  { id := 1
    subdomain := "h1"
    plan := PlanEnum.demo
    status := StatusEnum.pending
    created_at := 0
    expires_at := none
    owner_id := some 1
    ftp_user := none
    ftp_password := none
    ssh_user := none
    ssh_key := none
    mysql_db := none
    mysql_user := none
    mysql_password := none
    mail_user := none
    mail_password := none }

/-- A small store with both users and one host. -/
def db0 : DB :=
  { users := [alice, adminUser]
    hosts := [host1]
    temp_passwords := [] }

/-- A token for `alice` signed with key `"k"`, expiring at time 100. -/
def tokAlice : TokenStr :=
  .jwt { payload := { sub := some "1", role := some "user", exp := some 100 }
         signedWith := "k" }

/-- A token for `adminUser` signed with key `"k"`, expiring at time 100. -/
def tokAdmin : TokenStr :=
  .jwt { payload := { sub := some "2", role := some "admin", exp := some 100 }
         signedWith := "k" }

/-- A registration request that also supplies the ignored `password` field. -/
def regIn1 : UserRegister :=
  { name := "Bob"
    email := "bob@x.com"
    password := some "client-chosen"
    phone := "+3"
    agree_terms := true
    agree_privacy := true }

/-- The same registration request without a client password. -/
def regIn2 : UserRegister := { regIn1 with password := none }

/-! ## Helper lemmas -/

/-- Recombining the decimal digits produced with enough fuel gives the number
back. -/
theorem decDigitsAux_foldr (fuel : Nat) :
    ∀ n : Nat, n ≤ fuel →
      (decDigitsAux fuel n).foldr (fun d acc => 10 * acc + d) 0 = n := by
  induction fuel with
  | zero =>
    intro n hn
    interval_cases n
    rfl
  | succ fuel ih =>
    intro n hn
    match n with
    | 0 => rfl
    | m + 1 =>
      have hdiv : (m + 1) / 10 ≤ fuel := by
        have := Nat.div_lt_self (Nat.succ_pos m) (by norm_num : 1 < 10)
        omega
      simp only [decDigitsAux, List.foldr]
      rw [ih _ hdiv]
      omega

/-- Every produced decimal digit is below 10. -/
theorem decDigitsAux_lt_ten (fuel : Nat) :
    ∀ n d, d ∈ decDigitsAux fuel n → d < 10 := by
  induction fuel with
  | zero =>
    intro n d hd
    simp [decDigitsAux] at hd
  | succ fuel ih =>
    intro n d hd
    match n with
    | 0 => simp [decDigitsAux] at hd
    | m + 1 =>
      simp only [decDigitsAux, List.mem_cons] at hd
      rcases hd with h | h
      · exact h ▸ Nat.mod_lt _ (by norm_num)
      · exact ih _ _ h

/-- A digit character is parsed back to its digit. -/
theorem pyCharDigit_digitChar10 (d : Nat) (hd : d < 10) :
    pyCharDigit (digitChar10 d) = some d := by
  interval_cases d <;> rfl

/-- Parsing a list of digit characters accumulates their decimal value. -/
theorem pyParseNatGo_map (ds : List Nat) :
    ∀ acc, (∀ d ∈ ds, d < 10) →
      pyParseNatGo acc (ds.map digitChar10) =
        some (ds.foldl (fun a d => 10 * a + d) acc) := by
  induction ds with
  | nil => intro acc _; rfl
  | cons d ds ih =>
    intro acc hds
    have hd : d < 10 := hds d (List.mem_cons_self d ds)
    simp only [List.map, pyParseNatGo, pyCharDigit_digitChar10 d hd]
    exact ih _ (fun x hx => hds x (List.mem_cons_of_mem _ hx))

/-- Parsing an explicitly nonempty character list skips the emptiness check. -/
theorem pyParseNat_mk_cons (c : Char) (cs : List Char) :
    pyParseNat (String.mk (c :: cs)) = pyParseNatGo 0 (c :: cs) := rfl

/-- Python's decimal printing and pydantic's integer coercion are mutually
inverse: the subject id embedded as `str(user.id)` is recovered exactly. -/
theorem pyParseNat_pyStr (n : Nat) : pyParseNat (pyStr n) = some n := by
  by_cases h0 : n = 0
  · subst h0; rfl
  · have hds : ∀ d ∈ (decDigits n).reverse, d < 10 := by
      intro d hd
      exact decDigitsAux_lt_ten n n d (List.mem_reverse.mp hd)
    have hmap := pyParseNatGo_map ((decDigits n).reverse) 0 hds
    have hfold : ((decDigits n).reverse).foldl (fun a d => 10 * a + d) 0 = n := by
      rw [List.foldl_reverse]
      exact decDigitsAux_foldr n n le_rfl
    obtain ⟨c, cs, hl⟩ :
        ∃ c cs, (decDigits n).reverse.map digitChar10 = c :: cs := by
      match n, h0 with
      | m + 1, _ =>
        have : decDigits (m + 1) = ((m + 1) % 10) :: decDigitsAux m ((m + 1) / 10) := rfl
        rw [this]
        rcases hrev : (decDigitsAux m ((m + 1) / 10)).reverse with _ | ⟨c, cs⟩
        · exact ⟨digitChar10 ((m + 1) % 10), [], by simp [List.reverse_cons, hrev]⟩
        · exact ⟨digitChar10 c, cs.map digitChar10 ++ [digitChar10 ((m + 1) % 10)], by
            simp [List.reverse_cons, hrev]⟩
    rw [pyStr, if_neg h0, hl, pyParseNat_mk_cons, ← hl, hmap, hfold]

/-- A role's enum value coerces back to the role. -/
theorem roleOfStr_roleVal (r : RoleEnum) : roleOfStr (roleVal r) = some r := by
  cases r <;> rfl

/-! ## Claims -/

/-- C1: For every request carrying a bearer token: if token verification
fails, the access-control guard fails with 401 Unauthorized; if verification
succeeds but no user with the token's subject id exists in the store, it
fails with 404 Not Found; otherwise it returns exactly the user record whose
id equals the token's subject id. -/
theorem C1_get_current_user_spec (key : String) (now : Int) (db : DB)
    (token : TokenStr) :
    (decode_access_token key now token = .ok none →
      get_current_user key now db token =
        .error (.http ⟨401, some "Invalid token"⟩)) ∧
    (∀ td uid, decode_access_token key now token = .ok (some td) →
      td.user_id = some uid →
      (db.users.find? (fun u => u.id == uid) = none →
        get_current_user key now db token =
          .error (.http ⟨404, some "User not found"⟩)) ∧
      (∀ u, db.users.find? (fun x => x.id == uid) = some u →
        get_current_user key now db token = .ok u ∧ u.id = uid)) := by
  constructor
  · intro h
    simp [get_current_user, h]
  · intro td uid hdec huid
    constructor
    · intro hnone
      simp [get_current_user, hdec, db_get_user, huid, hnone]
    · intro u hu
      have hid : u.id = uid := by simpa using List.find?_some hu
      refine ⟨?_, hid⟩
      simp [get_current_user, hdec, db_get_user, huid, hu]

/-- C1 witness: a concrete valid token for a user on record. -/
theorem C1_get_current_user_spec_witness :
    get_current_user "k" 0 db0 tokAlice = .ok alice ∧ alice.id = 1 :=
  ((C1_get_current_user_spec "k" 0 db0 tokAlice).2
      { user_id := some 1, role := some RoleEnum.user } 1 (by decide) rfl).2
    alice (by decide)

/-- C2: Every authenticated non-admin (the guest and system roles included)
receives 403 Forbidden from each admin operation — list users, block host,
archive host — and the store, the requester's own record and every host
included, is returned unchanged. -/
theorem C2_non_admin_forbidden (key : String) (now : Int) (db : DB)
    (token : TokenStr) (cu : User)
    (hcu : get_current_user key now db token = .ok cu)
    (hrole : cu.role ≠ RoleEnum.admin) :
    list_users key now db token = (.error (.http ⟨403, none⟩), db) ∧
    (∀ host_id,
      block_host key now host_id db token = (.error (.http ⟨403, none⟩), db)) ∧
    (∀ host_id,
      archive_host key now host_id db token = (.error (.http ⟨403, none⟩), db)) := by
  refine ⟨?_, fun host_id => ?_, fun host_id => ?_⟩ <;>
    simp [list_users, block_host, archive_host, hcu, hrole]

/-- C2 witness: the regular user `alice` is turned away by the user-listing
admin operation with the store untouched. -/
theorem C2_non_admin_forbidden_witness :
    list_users "k" 0 db0 tokAlice = (.error (.http ⟨403, none⟩), db0) ∧
    block_host "k" 0 1 db0 tokAlice = (.error (.http ⟨403, none⟩), db0) :=
  ⟨(C2_non_admin_forbidden "k" 0 db0 tokAlice alice (by decide) (by decide)).1,
   (C2_non_admin_forbidden "k" 0 db0 tokAlice alice (by decide) (by decide)).2.1 1⟩

/-- C3: For an admin requester: for a host id on record, block sets that
host's status to exactly `disabled` and archive to exactly `archived`,
regardless of the prior status and with no current-state check, leaving
every other host unchanged; for an absent id both fail with 404 Not Found. -/
theorem C3_block_archive_spec (key : String) (now : Int) (host_id : Nat)
    (db : DB) (token : TokenStr) (cu : User)
    (hcu : get_current_user key now db token = .ok cu)
    (hrole : cu.role = RoleEnum.admin) :
    (db_get_host db host_id = none →
      block_host key now host_id db token = (.error (.http ⟨404, none⟩), db) ∧
      archive_host key now host_id db token = (.error (.http ⟨404, none⟩), db)) ∧
    (∀ h, db_get_host db host_id = some h →
      (block_host key now host_id db token).1 = .ok "Host blocked" ∧
      { h with status := StatusEnum.disabled } ∈
        (block_host key now host_id db token).2.hosts ∧
      (∀ h2 ∈ (block_host key now host_id db token).2.hosts,
        (h2.id = host_id → h2.status = StatusEnum.disabled) ∧
        (h2.id ≠ host_id → h2 ∈ db.hosts)) ∧
      (archive_host key now host_id db token).1 = .ok "Host archived" ∧
      { h with status := StatusEnum.archived } ∈
        (archive_host key now host_id db token).2.hosts ∧
      (∀ h2 ∈ (archive_host key now host_id db token).2.hosts,
        (h2.id = host_id → h2.status = StatusEnum.archived) ∧
        (h2.id ≠ host_id → h2 ∈ db.hosts))) := by
  have upd : ∀ st : StatusEnum,
      (∀ h2 ∈ set_host_status db.hosts host_id st,
        (h2.id = host_id → h2.status = st) ∧
        (h2.id ≠ host_id → h2 ∈ db.hosts)) := by
    intro st h2 hh2
    rw [set_host_status, List.mem_map] at hh2
    obtain ⟨a, ha, hfa⟩ := hh2
    by_cases haid : a.id = host_id
    · rw [if_pos haid] at hfa
      constructor
      · intro _; rw [← hfa]
      · intro hne; exact absurd (hfa ▸ haid) hne
    · rw [if_neg haid] at hfa
      constructor
      · intro hid; exact absurd (hfa ▸ hid) haid
      · intro _; exact hfa ▸ ha
  constructor
  · intro hnone
    constructor <;> simp [block_host, archive_host, hcu, hrole, hnone]
  · intro h hfind
    have hmem : h ∈ db.hosts := List.mem_of_find?_eq_some hfind
    have hid : h.id = host_id := by simpa using List.find?_some hfind
    have hb : block_host key now host_id db token =
        (.ok "Host blocked",
         { db with hosts := set_host_status db.hosts host_id StatusEnum.disabled }) := by
      simp [block_host, hcu, hrole, hfind]
    have ha : archive_host key now host_id db token =
        (.ok "Host archived",
         { db with hosts := set_host_status db.hosts host_id StatusEnum.archived }) := by
      simp [archive_host, hcu, hrole, hfind]
    rw [hb, ha]
    have hmemupd : ∀ st : StatusEnum,
        { h with status := st } ∈ set_host_status db.hosts host_id st := by
      intro st
      rw [set_host_status, List.mem_map]
      exact ⟨h, hmem, by rw [if_pos hid]⟩
    exact ⟨rfl, hmemupd _, upd _, rfl, hmemupd _, upd _⟩

/-- C3 witness: the admin blocks then archives the host on record. -/
theorem C3_block_archive_spec_witness :
    (block_host "k" 0 1 db0 tokAdmin).1 = .ok "Host blocked" ∧
    { host1 with status := StatusEnum.disabled } ∈
      (block_host "k" 0 1 db0 tokAdmin).2.hosts ∧
    (archive_host "k" 0 1 db0 tokAdmin).1 = .ok "Host archived" ∧
    { host1 with status := StatusEnum.archived } ∈
      (archive_host "k" 0 1 db0 tokAdmin).2.hosts := by
  have h := (C3_block_archive_spec "k" 0 1 db0 tokAdmin adminUser (by decide) rfl).2
    host1 (by decide)
  exact ⟨h.1, h.2.1, h.2.2.2.1, h.2.2.2.2.1⟩

/-- C4: A login with an unknown email and a login with a wrong password for
an existing account fail with literally the same 401 "Invalid credentials"
error, revealing nothing about which case occurred; with the matching
password a token embedding that user's id and role is issued. The stored
hash is a well-formed Argon2 hash, as `get_password_hash` produces. -/
theorem C4_login_spec (key : String) (now : Int) (db : DB)
    (username password : String) :
    (get_user_by_email db username = none →
      login key now db username password =
        .error (.http ⟨401, some "Invalid credentials"⟩)) ∧
    (∀ u p s, get_user_by_email db username = some u →
      u.hashed_password = HashStr.wellFormed p s →
      (password ≠ p →
        login key now db username password =
          .error (.http ⟨401, some "Invalid credentials"⟩)) ∧
      (password = p →
        ∃ t, login key now db username password = .ok t ∧
          t.payload.sub = some (pyStr u.id) ∧
          t.payload.role = some (roleVal u.role))) := by
  constructor
  · intro h
    simp [login, h]
  · intro u p s hu hh
    constructor
    · intro hne
      simp [login, hu, hh, verify_password, ph_verify, hne]
    · intro heq
      subst heq
      refine ⟨create_access_token key now
          { sub := some (pyStr u.id), role := some (roleVal u.role), exp := none }
          none, ?_, rfl, rfl⟩
      simp [login, hu, hh, verify_password, ph_verify]

/-- C4 witness: an unknown email and a wrong password yield the identical
error. -/
theorem C4_login_spec_witness :
    login "k" 0 db0 "noone@x.com" "whatever" =
      .error (.http ⟨401, some "Invalid credentials"⟩) ∧
    login "k" 0 db0 "alice@x.com" "wrong" =
      .error (.http ⟨401, some "Invalid credentials"⟩) :=
  ⟨(C4_login_spec "k" 0 db0 "noone@x.com" "whatever").1 (by decide),
   ((C4_login_spec "k" 0 db0 "alice@x.com" "wrong").2 alice "pw123" 7
       (by decide) rfl).1 (by decide)⟩

/-- C5: for every subject id and role, a token issued for them and verified
before its 24-hour expiry under the same process-wide key decodes to exactly
that subject id and role, so presenting it to /users/me returns exactly that
user's record when the user exists. -/
theorem C5_token_roundtrip (key : String) (issued_at verify_at : Int)
    (uid : Nat) (role : RoleEnum)
    (hexp : verify_at < issued_at + 60 * ACCESS_TOKEN_EXPIRE_MINUTES) :
    decode_access_token key verify_at
        (.jwt (create_access_token key issued_at
          { sub := some (pyStr uid), role := some (roleVal role), exp := none }
          none)) =
      .ok (some { user_id := some uid, role := some role }) ∧
    (∀ db u, db.users.find? (fun x => x.id == uid) = some u →
      read_users_me key verify_at db
          (.jwt (create_access_token key issued_at
            { sub := some (pyStr uid), role := some (roleVal role), exp := none }
            none)) =
        .ok u) := by
  have hnotexp : ¬ (issued_at + 60 * ACCESS_TOKEN_EXPIRE_MINUTES < verify_at) := by
    omega
  have hdec : decode_access_token key verify_at
      (.jwt (create_access_token key issued_at
        { sub := some (pyStr uid), role := some (roleVal role), exp := none }
        none)) =
      .ok (some { user_id := some uid, role := some role }) := by
    simp [decode_access_token, jwt_decode, create_access_token, hnotexp,
      mkTokenData, validate_user_id, validate_role, pyParseNat_pyStr,
      roleOfStr_roleVal]
  refine ⟨hdec, fun db u hu => ?_⟩
  simp [read_users_me, get_current_user, hdec, db_get_user, hu]

/-- C5 witness: a token for `alice` issued at time 0 and used at time 100. -/
theorem C5_token_roundtrip_witness :
    decode_access_token "k" 100
        (.jwt (create_access_token "k" 0
          { sub := some (pyStr 1), role := some (roleVal RoleEnum.user),
            exp := none } none)) =
      .ok (some { user_id := some 1, role := some RoleEnum.user }) ∧
    read_users_me "k" 100 db0
        (.jwt (create_access_token "k" 0
          { sub := some (pyStr 1), role := some (roleVal RoleEnum.user),
            exp := none } none)) =
      .ok alice := by
  have h := C5_token_roundtrip "k" 0 100 1 RoleEnum.user (by decide)
  exact ⟨h.1, h.2 db0 alice (by decide)⟩

/-- C6: for an authenticated requester, the host-detail operation returns the
host iff a host with the id exists and its owner is the requester; the
absent-id case and the ownership-mismatch case fail with literally the same
404 "Host not found" error. -/
theorem C6_get_host_spec (key : String) (now : Int) (host_id : Nat) (db : DB)
    (token : TokenStr) (cu : User)
    (hcu : get_current_user key now db token = .ok cu) :
    (db_get_host db host_id = none →
      get_host key now host_id db token =
        .error (.http ⟨404, some "Host not found"⟩)) ∧
    (∀ h, db_get_host db host_id = some h →
      (h.owner_id ≠ some cu.id →
        get_host key now host_id db token =
          .error (.http ⟨404, some "Host not found"⟩)) ∧
      (h.owner_id = some cu.id →
        get_host key now host_id db token = .ok h)) := by
  constructor
  · intro hnone
    simp [get_host, hcu, hnone]
  · intro h hfind
    constructor
    · intro hne
      simp [get_host, hcu, hfind, hne]
    · intro howner
      simp [get_host, hcu, hfind, howner]

/-- C6 witness: the owner retrieves the host; the admin, who does not own it,
gets the very same 404 as for an id that is absent altogether. -/
theorem C6_get_host_spec_witness :
    get_host "k" 0 1 db0 tokAlice = .ok host1 ∧
    get_host "k" 0 1 db0 tokAdmin =
      .error (.http ⟨404, some "Host not found"⟩) ∧
    get_host "k" 0 999 db0 tokAdmin =
      .error (.http ⟨404, some "Host not found"⟩) :=
  ⟨((C6_get_host_spec "k" 0 1 db0 tokAlice alice (by decide)).2 host1
      (by decide)).2 rfl,
   ((C6_get_host_spec "k" 0 1 db0 tokAdmin adminUser (by decide)).2 host1
      (by decide)).1 (by decide),
   (C6_get_host_spec "k" 0 999 db0 tokAdmin adminUser (by decide)).1 (by decide)⟩

/-- C7: for an authenticated creation request, a subdomain already belonging
to an existing host makes the operation fail with a BadRequest/Conflict-class
(400) error and leaves the store unchanged; otherwise the created host starts
with status `pending`, is owned by the requester, and has every
ftp/ssh/mysql/mail credential field unset. -/
theorem C7_create_host_spec (key : String) (now : Int) (db : DB)
    (token : TokenStr) (host_in : HostCreate) (cu : User)
    (hcu : get_current_user key now db token = .ok cu) :
    ((∃ h ∈ db.hosts, h.subdomain = host_in.subdomain) →
      ∃ e, create_host key now db token host_in = (.error (.http e), db) ∧
        e.status_code = 400) ∧
    ((∀ h ∈ db.hosts, h.subdomain ≠ host_in.subdomain) →
      create_host key now db token host_in =
        (.ok (new_host db host_in cu now),
         { db with hosts := db.hosts ++ [new_host db host_in cu now] }) ∧
      (new_host db host_in cu now).status = StatusEnum.pending ∧
      (new_host db host_in cu now).owner_id = some cu.id ∧
      (new_host db host_in cu now).subdomain = host_in.subdomain ∧
      (new_host db host_in cu now).ftp_user = none ∧
      (new_host db host_in cu now).ftp_password = none ∧
      (new_host db host_in cu now).ssh_user = none ∧
      (new_host db host_in cu now).ssh_key = none ∧
      (new_host db host_in cu now).mysql_db = none ∧
      (new_host db host_in cu now).mysql_user = none ∧
      (new_host db host_in cu now).mysql_password = none ∧
      (new_host db host_in cu now).mail_user = none ∧
      (new_host db host_in cu now).mail_password = none) := by
  constructor
  · intro hdup
    have hany : db.hosts.any
        (fun h => h.subdomain == (new_host db host_in cu now).subdomain) = true := by
      rw [List.any_eq_true]
      obtain ⟨h, hmem, hsub⟩ := hdup
      exact ⟨h, hmem, by simpa [new_host] using hsub⟩
    refine ⟨⟨400, none⟩, ?_, rfl⟩
    simp [create_host, hcu, db_commit_new_host, hany]
  · intro hfresh
    have hany : db.hosts.any
        (fun h => h.subdomain == (new_host db host_in cu now).subdomain) = false := by
      rw [List.any_eq_false]
      intro h hmem
      simpa [new_host] using hfresh h hmem
    refine ⟨?_, rfl, rfl, rfl, rfl, rfl, rfl, rfl, rfl, rfl, rfl, rfl, rfl⟩
    simp [create_host, hcu, db_commit_new_host, hany]

/-- C7 witness: creating a host with a fresh subdomain for `alice`. -/
theorem C7_create_host_spec_witness :
    create_host "k" 0 db0 tokAlice { subdomain := "h2", plan := PlanEnum.demo } =
      (.ok (new_host db0 { subdomain := "h2", plan := PlanEnum.demo } alice 0),
       { db0 with hosts := db0.hosts ++
          [new_host db0 { subdomain := "h2", plan := PlanEnum.demo } alice 0] }) ∧
    (new_host db0 { subdomain := "h2", plan := PlanEnum.demo } alice 0).status =
      StatusEnum.pending ∧
    (new_host db0 { subdomain := "h2", plan := PlanEnum.demo } alice 0).owner_id =
      some alice.id := by
  have h := (C7_create_host_spec "k" 0 db0 tokAlice
      { subdomain := "h2", plan := PlanEnum.demo } alice (by decide)).2 (by decide)
  exact ⟨h.1, h.2.1, h.2.2.1⟩

/-- C8 counterexample: for a malformed stored hash string — which no password
matches — verification does not return false; the uncaught `InvalidHashError`
escapes to the caller, contrary to the claim that a mismatch returns false
and never raises. -/
theorem C8_counterexample :
    hashMatches "secret" (HashStr.malformed "nothash") = false ∧
    verify_password "secret" (HashStr.malformed "nothash") ≠ .ok false ∧
    verify_password "secret" (HashStr.malformed "nothash") =
      .error PyExn.invalidHashError := by
  refine ⟨rfl, ?_, rfl⟩
  decide

/-- C8 (amended): for every password string and every well-formed Argon2 hash
(one produced by the hashing function), `verify_password` returns true iff the
password matches the hash, returns false on a mismatch, and never raises;
only a malformed stored hash string makes it raise (`InvalidHashError` is the
one exception the code does not catch). -/
theorem C8_verify_password_wellformed (plain p : String) (s : Nat) :
    verify_password plain (HashStr.wellFormed p s) =
      .ok (hashMatches plain (HashStr.wellFormed p s)) := by
  by_cases h : plain = p <;>
    simp [verify_password, ph_verify, hashMatches, h]

/-- C9 counterexample: a token signed with the correct key and unexpired but
whose subject claim is not an integer string makes `decode_access_token`
raise a pydantic validation error rather than return the invalid/None
result, contrary to the claim that no exception passes the boundary. -/
theorem C9_counterexample :
    decode_access_token "supersecretkey" 0
        (.jwt { payload := { sub := some "abc", role := some "user", exp := some 100 }
                signedWith := "supersecretkey" }) =
      .error PyExn.validationError := by
  decide

/-- C9 (amended): on signature mismatch, malformed token, or expiry the
decoder returns the uniform invalid result `None` and never throws; an
exception escapes only for a token that passes JWT signature and expiry
verification but whose payload fails `TokenData` validation (a non-integer
subject or an unknown role value). -/
theorem C9_decode_spec (key : String) (now : Int) (token : TokenStr) :
    (jwt_decode key now token = none →
      decode_access_token key now token = .ok none) ∧
    (∀ e, decode_access_token key now token = .error e →
      ∃ p, jwt_decode key now token = some p ∧
        mkTokenData p.sub p.role = .error e) := by
  constructor
  · intro h
    simp [decode_access_token, h]
  · intro e he
    rcases hj : jwt_decode key now token with _ | p
    · rw [decode_access_token, hj] at he
      exact absurd he (by simp)
    · simp only [decode_access_token, hj] at he
      refine ⟨p, rfl, ?_⟩
      rcases hm : mkTokenData p.sub p.role with e2 | td
      · rw [hm] at he
        simp at he
        rw [he]
      · rw [hm] at he
        simp at he

/-- C9 witness: an unparseable bearer string produces the invalid result
without an exception. -/
theorem C9_decode_spec_witness :
    decode_access_token "supersecretkey" 0 (.malformed "garbage") = .ok none :=
  (C9_decode_spec "supersecretkey" 0 (.malformed "garbage")).1 rfl

/-- C10: the optional `password` field of the registration body has no effect
on the outcome: with the same random draws, two registration runs differing
only in that field produce identical results — same user record, same
TempPassword record, same response; on success the stored credential hash is
computed from the freshly generated 10-character letters-and-digits
temporary password, never from the client-supplied value. -/
theorem C10_register_ignores_password (db : DB) (u1 u2 : UserRegister)
    (draws : List Nat) (uuid_token : String) (salt : Nat) (now : Int)
    (hname : u1.name = u2.name) (hemail : u1.email = u2.email)
    (hphone : u1.phone = u2.phone) (hterms : u1.agree_terms = u2.agree_terms)
    (hpriv : u1.agree_privacy = u2.agree_privacy) :
    register db u1 draws uuid_token salt now =
      register db u2 draws uuid_token salt now ∧
    (is_invalid_agreements u1 = false →
      get_user_by_email db u1.email = none →
      get_user_by_phone db u1.phone = none →
      (register db u1 draws uuid_token salt now).1 =
        .ok { user := registered_user db u1 draws salt now, token := uuid_token } ∧
      (registered_user db u1 draws salt now).hashed_password =
        get_password_hash (generate_random_password draws 10) salt ∧
      (generate_random_password draws 10).length = 10 ∧
      (∀ c ∈ (generate_random_password draws 10).data, c ∈ ascii_letters_digits) ∧
      { token := uuid_token, temp_password := generate_random_password draws 10,
        created_at := now } ∈
        (register db u1 draws uuid_token salt now).2.temp_passwords) := by
  obtain ⟨n1, e1, p1, ph1, t1, pr1⟩ := u1
  obtain ⟨n2, e2, p2, ph2, t2, pr2⟩ := u2
  have hn : n1 = n2 := hname
  have he : e1 = e2 := hemail
  have hp : ph1 = ph2 := hphone
  have ht : t1 = t2 := hterms
  have hpr : pr1 = pr2 := hpriv
  subst hn he hp ht hpr
  refine ⟨rfl, fun hagree hmail hphone2 => ?_⟩
  have hreg : register db ⟨n1, e1, p1, ph1, t1, pr1⟩ draws uuid_token salt now =
      (.ok { user := registered_user db ⟨n1, e1, p1, ph1, t1, pr1⟩ draws salt now,
             token := uuid_token },
       { db with
          users := db.users ++
            [registered_user db ⟨n1, e1, p1, ph1, t1, pr1⟩ draws salt now]
          temp_passwords := db.temp_passwords ++
            [{ token := uuid_token
               temp_password := generate_random_password draws 10
               created_at := now }] }) := by
    simp only [register, hagree, Bool.false_eq_true, if_false, hmail, hphone2,
      Option.isSome_none, if_false]
  refine ⟨by rw [hreg], rfl, ?_, ?_, ?_⟩
  · simp [generate_random_password]
  · intro c hc
    simp only [generate_random_password] at hc
    obtain ⟨i, _, hi⟩ := List.mem_map.mp hc
    have hlen : (draws.getD i 0) % ascii_letters_digits.length <
        ascii_letters_digits.length :=
      Nat.mod_lt _ (by decide)
    rw [List.getD_eq_getElem _ _ hlen] at hi
    exact hi ▸ List.getElem_mem hlen
  · rw [hreg]
    simp

/-- C10 witness: the same registration with and without a client password,
with identical draws. -/
theorem C10_register_ignores_password_witness :
    register db0 regIn1 [0, 1, 2] "tok123" 9 0 =
      register db0 regIn2 [0, 1, 2] "tok123" 9 0 ∧
    (register db0 regIn1 [0, 1, 2] "tok123" 9 0).1 =
      .ok { user := registered_user db0 regIn1 [0, 1, 2] 9 0, token := "tok123" } ∧
    (registered_user db0 regIn1 [0, 1, 2] 9 0).hashed_password =
      get_password_hash (generate_random_password [0, 1, 2] 10) 9 ∧
    (generate_random_password [0, 1, 2] 10).length = 10 := by
  have h := C10_register_ignores_password db0 regIn1 regIn2 [0, 1, 2] "tok123" 9 0
    rfl rfl rfl rfl rfl
  have h2 := h.2 (by decide) (by decide) (by decide)
  exact ⟨h.1, h2.1, h2.2.1, h2.2.2.1⟩

end Pautina
